import Mathlib

/-!
Shallow embedding of the cloud network and instance lifecycle orchestrator of
the sfkit website repository, file src/utils/google_cloud/google_cloud_compute.py
(class GoogleCloudCompute).  Pure data manipulations of that file are translated
into Lean functions; the cloud control plane is an explicit CloudState record,
and every mutating API request the class issues is recorded as a Call value, so
that theorems can speak about which requests a method issues and in which order.
Machine-level details that the claims do not touch (HTTP transport, JSON
encoding) are abstracted; list and string manipulations follow the Python
source line by line.
-/

namespace SfkitGcp

/-- Constant SERVER_GCP_PROJECT from src/utils/constants.py.  The constants
module is not part of the provided sources; only the names matter to the
orchestrator code and no claim depends on the exact value. -/
def SERVER_GCP_PROJECT : String := "sfkit-server-project"

/-- Constant NETWORK_NAME from src/utils/constants.py (exact value immaterial
to the claims). -/
def NETWORK_NAME : String := "sfkit-network"

/-- Constant SUBNET_NAME from src/utils/constants.py (exact value immaterial
to the claims). -/
def SUBNET_NAME : String := "sfkit-subnet"

/-- Constant REGION from src/utils/constants.py (exact value immaterial to the
claims). -/
def REGION : String := "us-central1"

/-- Constant ZONE from src/utils/constants.py (exact value immaterial to the
claims). -/
def ZONE : String := "us-central1-a"

/-- Boolean test that a list of characters starts with another list, used to
embed the Python substring operator on strings. -/
def chPrefix : List Char → List Char → Bool
  | [], _ => true
  | _ :: _, [] => false
  | a :: as, b :: bs => a == b && chPrefix as bs

/-- Boolean test that a list of characters occurs contiguously inside another,
used to embed the Python substring operator on strings. -/
def chContains (needle : List Char) : List Char → Bool
  | [] => chPrefix needle []
  | c :: cs => chPrefix needle (c :: cs) || chContains needle cs

/-- The Python expression needle in hay on strings: substring containment. -/
def strContains (hay needle : String) : Bool :=
  chContains needle.toList hay.toList

/-- A parsed CIDR block o1.o2.o3.o4/plen.  The Python code passes CIDR ranges
around as canonical dotted-quad strings and parses them with ipaddr.IPNetwork
for the overlap test; canonical strings are in bijection with these records, so
the string equality tests of the source are modelled as structural equality. -/
structure Cidr where
  o1 : Nat
  o2 : Nat
  o3 : Nat
  o4 : Nat
  plen : Nat
deriving DecidableEq, Repr

/-- The 32-bit numeric value of the dotted-quad address of a CIDR block. -/
def Cidr.addrVal (c : Cidr) : Nat :=
  c.o1 * 2 ^ 24 + c.o2 * 2 ^ 16 + c.o3 * 2 ^ 8 + c.o4

/-- The number of addresses in a CIDR block. -/
def Cidr.blockSize (c : Cidr) : Nat := 2 ^ (32 - c.plen)

/-- The network (lowest) address of a CIDR block, as ipaddr.IPNetwork.network
computes it by masking the host bits. -/
def Cidr.netLo (c : Cidr) : Nat := c.addrVal - c.addrVal % c.blockSize

/-- The broadcast (highest) address of a CIDR block, as
ipaddr.IPNetwork.broadcast. -/
def Cidr.netHi (c : Cidr) : Nat := c.netLo + c.blockSize - 1

/-- ipaddr membership: an address is in a network when it lies between the
network and broadcast addresses. -/
def Cidr.containsAddr (c : Cidr) (a : Nat) : Bool :=
  c.netLo ≤ a && a ≤ c.netHi

/-- ipaddr.IPNetwork.overlaps: either network contains an endpoint of the
other.  This is the overlap test of remove_conflicting_subnets (line 112 of
google_cloud_compute.py). -/
def Cidr.overlaps (a b : Cidr) : Bool :=
  b.containsAddr a.netLo || b.containsAddr a.netHi ||
    a.containsAddr b.netLo || a.containsAddr b.netHi

/-- The expected range 10.0.i.0/24 for role index i, as generated on line 103
of google_cloud_compute.py. -/
def roleRange (i : Nat) : Cidr := ⟨10, 0, i, 0, 24⟩

/-- The range 10.0.role.0/28 that create_subnet requests for a role (line 167
of google_cloud_compute.py). -/
def subnetCreateRange (role : Nat) : Cidr := ⟨10, 0, role, 0, 28⟩

/-- The selfLink URL of a network, as the provider returns it and as
create_peerings builds it on line 195 of google_cloud_compute.py. -/
def networkUrl (project network_name : String) : String :=
  "https://www.googleapis.com/compute/v1/projects/" ++ project ++
    "/global/networks/" ++ network_name

/-- The selfLink URL the provider assigns to a subnetwork. -/
def subnetSelfLink (project name : String) : String :=
  "https://www.googleapis.com/compute/v1/projects/" ++ project ++
    "/regions/" ++ REGION ++ "/subnetworks/" ++ name

/-- A subnetwork resource as the listing returns it: the fields of the JSON
object that remove_conflicting_subnets, delete_subnet and create_subnet read
(name, network, ipCidrRange, selfLink). -/
structure Subnet where
  name : String
  network : String
  ipCidrRange : Cidr
  selfLink : String
deriving DecidableEq, Repr

/-- A compute instance as the provider holds it: the fields create_instance
sets and that list_instances / get_vm_external_ip_address read.  networkIP and
subnetwork are the first network interface; natIP is the ephemeral external
address of its access config. -/
structure Instance where
  name : String
  zone : String
  machineType : String
  subnetwork : String
  networkIP : String
  natIP : String
  metadataItems : List (String × String)
  bootDiskSizeGb : Nat
  scopes : List String
deriving DecidableEq, Repr

/-- The observable control-plane state of one cloud project: what the listing
and get requests of GoogleCloudCompute return. -/
structure CloudState where
  networks : List String
  firewalls : List String
  peerings : List String
  subnets : List Subnet
  instances : List Instance
deriving DecidableEq, Repr

/-- One mutating API request issued by GoogleCloudCompute, in issue order. -/
inductive Call where
  | networkInsert (name : String)
  | firewallInsert (name : String)
  | subnetInsert (name : String) (range : Cidr)
  | subnetDeleteCall (name : String)
  | addPeering (proj : String)
  | removePeering (proj : String)
  | instanceInsert (name : String) (zone : String)
  | instanceDelete (name : String) (zone : String)
deriving DecidableEq, Repr

/-- create_firewall (lines 50 to 71): inserts the ingress firewall rule named
network_name-vm-ingress for the network and waits for the operation. -/
def create_firewall (st : CloudState) (network_name : String) :
    CloudState × List Call :=
  ({ st with firewalls := st.firewalls ++ [network_name ++ "-vm-ingress"] },
   [Call.firewallInsert (network_name ++ "-vm-ingress")])

/-- create_network (lines 30 to 48): lists the networks of the project; when
the name is absent, inserts a non-auto-subnet globally-routed network, waits
for the operation, and creates the companion firewall; otherwise does
nothing. -/
def create_network (st : CloudState) (network_name : String) :
    CloudState × List Call :=
  if network_name ∈ st.networks then (st, [])
  else
    let st1 := { st with networks := st.networks ++ [network_name] }
    let fw := create_firewall st1 network_name
    (fw.1, Call.networkInsert network_name :: fw.2)

/-- remove_conflicting_peerings (lines 73 to 93): reads the peerings of the
study network (peering names are peering-proj, already stripped to the remote
project here) and removes every peering whose remote project is not in
gcp_projects. -/
def remove_conflicting_peerings (gcp_projects : List String)
    (st : CloudState) : CloudState × List Call :=
  ({ st with peerings := st.peerings.filter (fun p => decide (p ∈ gcp_projects)) },
   (st.peerings.filter (fun p => decide (p ∉ gcp_projects))).map Call.removePeering)

/-- create_peerings (lines 176 to 203): reads the current peerings once, then
for every project of gcp_projects other than our own that is not in that
snapshot, issues an addPeering request (the snapshot is not refreshed inside
the loop, exactly as in the source). -/
def create_peerings (project : String) (gcp_projects : List String)
    (st : CloudState) : CloudState × List Call :=
  let peerings := st.peerings
  let other_projects := gcp_projects.filter (fun p => p != project)
  let toAdd := other_projects.filter (fun p => decide (p ∉ peerings))
  ({ st with peerings := st.peerings ++ toAdd }, toAdd.map Call.addPeering)

/-- The list comprehension on lines 102 to 104: ranges 10.0.i.0/24 for i in
range(3) with gcp_projects[i] equal to our project.  Indexing a list of fewer
than three entries raises IndexError, modelled as the error case (the getD
default is never read when the length guard passes). -/
def ip_cidr_ranges_for_this_network (project : String)
    (gcp_projects : List String) : Except String (List Cidr) :=
  if gcp_projects.length < 3 then
    Except.error "IndexError: list index out of range"
  else
    Except.ok ((List.range 3).filterMap (fun i =>
      if gcp_projects.getD i "" == project then some (roleRange i) else none))

/-- The per-subnet conditions of lines 106 to 114: the subnet belongs to the
study network (Python substring test on the network URL), its range string is
not one of the expected ranges (string inequality, hence structural
inequality of parsed ranges), and it overlaps at least one expected range. -/
def subnetConflicting (expected : List Cidr) (sub : Subnet) : Bool :=
  strContains sub.network NETWORK_NAME &&
    !(expected.contains sub.ipCidrRange) &&
    expected.any (fun e => Cidr.overlaps sub.ipCidrRange e)

/-- list_instances (lines 334 to 346): names of the instances of a zone whose
first network interface subnetwork URL contains the given substring (the
default empty filter keeps every instance of the zone). -/
def list_instances (st : CloudState) (zone : String) (subnetwork : String) :
    List String :=
  (st.instances.filter
      (fun i => i.zone == zone && strContains i.subnetwork subnetwork)).map
    Instance.name

/-- The state effect of one successful delete_subnet body (lines 117 to 143):
every instance of constants.ZONE attached to the subnet is deleted (each
waiting for its zonal operation), then the subnet itself is deleted; the
recorded calls are the instance deletions followed by the subnet deletion. -/
def delete_subnet_effect (st : CloudState) (sub : Subnet) :
    CloudState × List Call :=
  let evacNames := list_instances st ZONE sub.selfLink
  ({ st with
      instances := st.instances.filter
        (fun i => !(i.zone == ZONE && evacNames.contains i.name)),
      subnets := st.subnets.filter (fun s => s.name != sub.name) },
   evacNames.map (fun n => Call.instanceDelete n ZONE) ++
     [Call.subnetDeleteCall sub.name])

/-- One iteration of the subnet loop of remove_conflicting_subnets (lines 105
to 115): call delete_subnet when the subnet is conflicting, otherwise move
on. -/
def rcsStep (expected : List Cidr) (acc : CloudState × List Call)
    (sub : Subnet) : CloudState × List Call :=
  if subnetConflicting expected sub then
    let eff := delete_subnet_effect acc.1 sub
    (eff.1, acc.2 ++ eff.2)
  else acc

/-- remove_conflicting_subnets (lines 95 to 115): computes the expected
ranges (IndexError propagates when the project list is shorter than three),
then walks the subnet listing snapshot and calls delete_subnet on every
conflicting subnet. -/
def remove_conflicting_subnets (project : String) (gcp_projects : List String)
    (st : CloudState) : Except String (CloudState × List Call) :=
  match ip_cidr_ranges_for_this_network project gcp_projects with
  | Except.error e => Except.error e
  | Except.ok expected =>
    Except.ok (st.subnets.foldl (rcsStep expected) (st, []))

/-- create_subnet (lines 145 to 174): when no subnet named SUBNET_NAME ++ role
exists yet, inserts one with range 10.0.role.0/28 on the study network and
waits for the regional operation.  Roles are decimal strings of participant
indices (str(index) at every call site), modelled as the index itself. -/
def create_subnet (project : String) (role : Nat) (st : CloudState) :
    CloudState × List Call :=
  let subnet_name := SUBNET_NAME ++ toString role
  if subnet_name ∈ st.subnets.map Subnet.name then (st, [])
  else
    let newSub : Subnet :=
      { name := subnet_name,
        network := networkUrl project NETWORK_NAME,
        ipCidrRange := subnetCreateRange role,
        selfLink := subnetSelfLink project subnet_name }
    ({ st with subnets := st.subnets ++ [newSub] },
     [Call.subnetInsert subnet_name (subnetCreateRange role)])

/-- The study document fields setup_networking reads: the ordered participant
list and, per participant, personal_parameters GCP_PROJECT value. -/
structure StudyDoc where
  participants : List String
  gcpProject : String → String

/-- Lines 18 to 22 of setup_networking: the server project followed by one
project per participant in participant-list order. -/
def study_gcp_projects (doc : StudyDoc) : List String :=
  SERVER_GCP_PROJECT :: doc.participants.map doc.gcpProject

/-- setup_networking (lines 17 to 28): assembles the ordered project list and
runs create_network, remove_conflicting_peerings, remove_conflicting_subnets,
create_subnet for this role, create_peerings, in that order, concatenating
the issued calls. -/
def setup_networking (project : String) (doc : StudyDoc) (role : Nat)
    (st : CloudState) : Except String (CloudState × List Call) :=
  let gcp_projects := study_gcp_projects doc
  let p1 := create_network st NETWORK_NAME
  let p2 := remove_conflicting_peerings gcp_projects p1.1
  match remove_conflicting_subnets project gcp_projects p2.1 with
  | Except.error e => Except.error e
  | Except.ok p3 =>
    let p4 := create_subnet project role p3.1
    let p5 := create_peerings project gcp_projects p4.1
    Except.ok (p5.1, p1.2 ++ p2.2 ++ p3.2 ++ p4.2 ++ p5.2)

/-- One polled operation result: its status string and, when present, the
error payload of the result object. -/
structure OpResult where
  status : String
  err : Option String
deriving DecidableEq, Repr

/-- What the operation waiter does with a poll sequence: still polling when no
terminal result was seen, a returned terminal payload, or a raised exception
carrying the error payload of a terminal result (the OperationFailed error of
the specification; the source raises Exception(result[error-key])). -/
inductive WaitOutcome where
  | pending
  | done (r : OpResult)
  | failed (e : String)
deriving DecidableEq, Repr

/-- wait_for_operation (lines 357 to 372; wait_for_zoneOperation and
wait_for_regionOperation, lines 374 to 406, are the same loop against another
scope): polls until the status is DONE, raises when the terminal result has an
error payload, returns it otherwise.  The input list gives the successive poll
results; the returned number counts the polls performed, and pending marks a
sequence that never reaches a terminal result (the loop keeps polling). -/
def wait_for_operation : List OpResult → WaitOutcome × Nat
  | [] => (WaitOutcome.pending, 0)
  | r :: rest =>
    if r.status == "DONE" then
      match r.err with
      | some e => (WaitOutcome.failed e, 1)
      | none => (WaitOutcome.done r, 1)
    else
      let tail := wait_for_operation rest
      (tail.1, tail.2 + 1)

/-- Contents of startup-script.sh, the protocol-runner startup script
(modelled as an opaque token: the file is outside the orchestrator and only
which of the two scripts is selected matters to the claims). -/
def startup_script_default : String := "contents of startup-script.sh"

/-- Contents of startup-script-validate.sh, the validation-runner startup
script (opaque token, distinct from the default script). -/
def startup_script_validate : String := "contents of startup-script-validate.sh"

/-- The serviceAccounts scopes of the instance body (lines 305 to 314). -/
def instanceScopes : List String :=
  ["https://www.googleapis.com/auth/devstorage.read_write",
   "https://www.googleapis.com/auth/logging.write",
   "https://www.googleapis.com/auth/pubsub"]

/-- metadata_config of create_instance (lines 252 to 272): the startup script
(validate selects the validation variant), the OS-login flag, and the
caller-supplied metadata item appended when present. -/
def metadata_config (validate : Bool) (metadata : Option (String × String)) :
    List (String × String) :=
  let base := [("startup-script",
                if validate then startup_script_validate
                else startup_script_default),
               ("enable-oslogin", "True")]
  match metadata with
  | some m => base ++ [m]
  | none => base

/-- The instance record that the body built on lines 274 to 316 creates, with
the ephemeral external address the provider assigns to its ONE_TO_ONE_NAT
access config passed in as natIP.  The body names its subnetwork in the short
regions/REGION/subnetworks/name form, which the provider resolves against the
project; listings return the resolved selfLink URL, which is what the
evacuation check of delete_subnet matches subnet selfLinks against. -/
def newInstance (project zone name : String) (role num_cpus : Nat)
    (validate : Bool) (metadata : Option (String × String))
    (boot_disk_size : Nat) (natIP : String) : Instance :=
  { name := name,
    zone := zone,
    machineType := "zones/" ++ zone ++ "/machineTypes/e2-highmem-" ++
      toString num_cpus,
    subnetwork := subnetSelfLink project (SUBNET_NAME ++ toString role),
    networkIP := "10.0." ++ toString role ++ ".10",
    natIP := natIP,
    metadataItems := metadata_config validate metadata,
    bootDiskSizeGb := boot_disk_size,
    scopes := instanceScopes }

/-- create_instance (lines 231 to 323): inserts the instance body and waits
for the zonal operation.  The provider rejects an insert whose name already
exists in the zone, which the wait surfaces as a raised error. -/
def create_instance (project zone name : String) (role num_cpus : Nat)
    (validate : Bool) (metadata : Option (String × String))
    (boot_disk_size : Nat) (natIP : String) (st : CloudState) :
    Except String (CloudState × List Call) :=
  if st.instances.any (fun i => i.zone == zone && i.name == name) then
    Except.error "instanceAlreadyExists"
  else
    let inst := newInstance project zone name role num_cpus validate metadata
      boot_disk_size natIP
    Except.ok ({ st with instances := st.instances ++ [inst] },
      [Call.instanceInsert name zone])

/-- delete_instance (lines 348 to 355): issues the delete for the named
instance of the zone and waits for the zonal operation; deleting an absent
instance is a provider error. -/
def delete_instance (name zone : String) (st : CloudState) :
    Except String (CloudState × List Call) :=
  if st.instances.any (fun i => i.zone == zone && i.name == name) then
    Except.ok ({ st with
        instances := st.instances.filter
          (fun i => !(i.zone == zone && i.name == name)) },
      [Call.instanceDelete name zone])
  else Except.error "instanceNotFound"

/-- get_vm_external_ip_address (lines 408 to 415): the natIP of the first
access config of the first network interface of the named instance. -/
def get_vm_external_ip_address (st : CloudState) (zone inst : String) :
    Except String String :=
  match st.instances.find? (fun i => i.zone == zone && i.name == inst) with
  | some i => Except.ok i.natIP
  | none => Except.error "instanceNotFound"

/-- setup_instance (lines 205 to 229): lists the instances of constants.ZONE
(note: the passed zone is not used for this existence check), deletes the
instance of that name when the listing holds it (in the passed zone, waiting
for completion), creates the fresh instance, and returns its external
address. -/
def setup_instance (project zone name : String) (role num_cpus : Nat)
    (validate : Bool) (metadata : Option (String × String))
    (boot_disk_size : Nat) (natIP : String) (st : CloudState) :
    Except String (CloudState × List Call × String) :=
  let existing := list_instances st ZONE ""
  let step1 : Except String (CloudState × List Call) :=
    if !existing.isEmpty && existing.contains name then
      delete_instance name zone st
    else Except.ok (st, [])
  match step1 with
  | Except.error e => Except.error e
  | Except.ok p1 =>
    match create_instance project zone name role num_cpus validate metadata
        boot_disk_size natIP p1.1 with
    | Except.error e => Except.error e
    | Except.ok p2 =>
      match get_vm_external_ip_address p2.1 zone name with
      | Except.error e => Except.error e
      | Except.ok ip => Except.ok (p2.1, p1.2 ++ p2.2, ip)

/-- Outcome of the delete-confirmation loop of delete_subnet: the number of
listing polls performed and the sleeps (in seconds) between them, ending
either in the break (the subnet left the listing) or in the fatal quit(1). -/
inductive SubnetDelOutcome where
  | confirmed (polls : Nat) (sleepSecs : List Nat)
  | fatal (polls : Nat) (sleepSecs : List Nat)
deriving DecidableEq, Repr

/-- The confirmation loop on lines 132 to 143: for i in range(30), quit(1) at
i = 25, otherwise poll the subnet listing, break when the subnet is gone, and
sleep 2 seconds before the next iteration.  The delay d abstracts the control
plane: the listing still shows the subnet on the first d polls (poll number i
sees it gone exactly when d ≤ i).  fuel is the remaining range(30) budget. -/
def confirmLoop (d i fuel : Nat) : SubnetDelOutcome :=
  match fuel with
  | 0 => SubnetDelOutcome.confirmed 0 []
  | fuel' + 1 =>
    if i == 25 then SubnetDelOutcome.fatal 0 []
    else if d ≤ i then SubnetDelOutcome.confirmed 1 []
    else
      match confirmLoop d (i + 1) fuel' with
      | SubnetDelOutcome.confirmed p s =>
        SubnetDelOutcome.confirmed (p + 1) (2 :: s)
      | SubnetDelOutcome.fatal p s =>
        SubnetDelOutcome.fatal (p + 1) (2 :: s)

/-- One execution of the delete_subnet body (lines 117 to 143): the issued
calls, the final state, and the confirmation outcome for control-plane delay
d. -/
structure DeleteSubnetRun where
  calls : List Call
  state : CloudState
  outcome : SubnetDelOutcome
deriving Repr

/-- The delete_subnet body: evacuate every instance of constants.ZONE attached
to the subnet (each deletion waiting for its operation), issue the subnet
delete, then run the confirmation loop over the listing with control-plane
delay d. -/
def delete_subnet_body (st : CloudState) (sub : Subnet) (d : Nat) :
    DeleteSubnetRun :=
  let eff := delete_subnet_effect st sub
  { calls := eff.2, state := eff.1, outcome := confirmLoop d 0 30 }

/-- Result of a tenacity retry wrapper: the value of the first successful
attempt with the number of attempts made and the fixed waits between them, or
exhaustion after the attempt ceiling (the last exception propagates). -/
inductive RetryOutcome (α : Type) where
  | ok (a : α) (attempts : Nat) (waitSecs : List Nat)
  | exhausted (attempts : Nat) (waitSecs : List Nat)
deriving Repr

/-- tenacity retry(stop=stop_after_attempt(n), wait=wait_fixed(w)): run the
attempts in order; a transient failure of attempt k (fails k = true) waits w
seconds and retries while attempts remain; the outcomes count attempts and
record the waits. -/
def retryFixed {α : Type} (w : Nat) (fails : Nat → Bool) (run : Nat → α) :
    Nat → Nat → RetryOutcome α
  | 0, _ => RetryOutcome.exhausted 0 []
  | n + 1, k =>
    if fails k then
      match n with
      | 0 => RetryOutcome.exhausted 1 []
      | m + 1 =>
        match retryFixed w fails run (m + 1) (k + 1) with
        | RetryOutcome.ok a t ws => RetryOutcome.ok a (t + 1) (w :: ws)
        | RetryOutcome.exhausted t ws => RetryOutcome.exhausted (t + 1) (w :: ws)
    else RetryOutcome.ok (run k) 1 []

/-- delete_subnet under its decorator retry(stop=stop_after_attempt(5),
wait=wait_fixed(30)) (line 117): up to five attempts of the body with fixed
30-second waits on transient API errors (fails gives the per-attempt transient
failures; quit(1) is a process exit, not an exception, so the decorator never
retries a fatal confirmation outcome). -/
def delete_subnet_retried (st : CloudState) (sub : Subnet) (d : Nat)
    (fails : Nat → Bool) : RetryOutcome DeleteSubnetRun :=
  retryFixed 30 fails (fun _ => delete_subnet_body st sub d) 5 0

/-- Calls of the network-ensure phase: network or firewall insertion. -/
def Call.isNetworkSetup : Call → Bool
  | Call.networkInsert _ => true
  | Call.firewallInsert _ => true
  | _ => false

/-- Peering removals. -/
def Call.isPeeringRemove : Call → Bool
  | Call.removePeering _ => true
  | _ => false

/-- Calls of the subnet-pruning phase: a subnet deletion or the deletion of an
instance evacuated from it. -/
def Call.isSubnetPrune : Call → Bool
  | Call.subnetDeleteCall _ => true
  | Call.instanceDelete _ _ => true
  | _ => false

/-- Subnet insertions. -/
def Call.isSubnetInsert : Call → Bool
  | Call.subnetInsert _ _ => true
  | _ => false

/-- Peering additions. -/
def Call.isPeeringAdd : Call → Bool
  | Call.addPeering _ => true
  | _ => false

/-- A stale subnet with range 10.0.5.0/24 on the study network of project P
(role 5 left over from a larger study). -/
def sub5_24 : Subnet :=
  { name := "subnet-role5",
    network := networkUrl "P" NETWORK_NAME,
    ipCidrRange := ⟨10, 0, 5, 0, 24⟩,
    selfLink := subnetSelfLink "P" "subnet-role5" }

/-- A stale subnet with range 10.0.5.0/28 on the study network of project P. -/
def sub5_28 : Subnet :=
  { name := "subnet-role5-small",
    network := networkUrl "P" NETWORK_NAME,
    ipCidrRange := ⟨10, 0, 5, 0, 28⟩,
    selfLink := subnetSelfLink "P" "subnet-role5-small" }

/-- An old subnet with range 10.0.1.0/28 on the study network of project P,
contained in the expected range 10.0.1.0/24 of role 1. -/
def sub1_28 : Subnet :=
  { name := "subnet-role1-old",
    network := networkUrl "P" NETWORK_NAME,
    ipCidrRange := ⟨10, 0, 1, 0, 28⟩,
    selfLink := subnetSelfLink "P" "subnet-role1-old" }

/-- Project state of P holding only the stale 10.0.5.0/24 subnet. -/
def stA : CloudState := ⟨[NETWORK_NAME], [], [], [sub5_24], []⟩

/-- Project state of P holding only the stale 10.0.5.0/28 subnet. -/
def stB : CloudState := ⟨[NETWORK_NAME], [], [], [sub5_28], []⟩

/-- Project state of P holding only the old 10.0.1.0/28 subnet. -/
def stC : CloudState := ⟨[NETWORK_NAME], [], [], [sub1_28], []⟩

/-- stC after the old 10.0.1.0/28 subnet was deleted. -/
def stCafter : CloudState := ⟨[NETWORK_NAME], [], [], [], []⟩

/-- Project state with current peerings to projects A, B and C. -/
def stP : CloudState := ⟨[NETWORK_NAME], [], ["A", "B", "C"], [], []⟩

/-- A study document with participants alice (role 1, project proj-a) and bob
(role 2, project proj-b). -/
def doc0 : StudyDoc :=
  ⟨["alice", "bob"], fun p => if p = "alice" then "proj-a" else "proj-b"⟩

/-- An empty project state. -/
def st0 : CloudState := ⟨[], [], [], [], []⟩

/-- An instance named inst0 living in zone europe-west1-b of project P. -/
def instZ : Instance :=
  newInstance "P" "europe-west1-b" "inst0" 1 4 false none 10 "35.0.0.1"

/-- Project state of P holding only the europe-west1-b instance inst0. -/
def stZ : CloudState := ⟨[NETWORK_NAME], [], [], [], [instZ]⟩

/-- The role-0 subnet of project P. -/
def sub8 : Subnet :=
  { name := SUBNET_NAME ++ "0",
    network := networkUrl "P" NETWORK_NAME,
    ipCidrRange := subnetCreateRange 0,
    selfLink := subnetSelfLink "P" (SUBNET_NAME ++ "0") }

/-- An instance of constants.ZONE attached to the role-0 subnet of P. -/
def inst8 : Instance := newInstance "P" ZONE "inst8" 0 4 false none 10 "35.0.0.2"

/-- Project state of P with the role-0 subnet and one attached instance. -/
def st8 : CloudState := ⟨[NETWORK_NAME], [], [], [sub8], [inst8]⟩

/-- The state setup_networking leaves for project proj-a of study doc0, role
1, starting from the empty state. -/
def stFinal6 : CloudState :=
  ⟨[NETWORK_NAME], [NETWORK_NAME ++ "-vm-ingress"],
   [SERVER_GCP_PROJECT, "proj-b"],
   [⟨SUBNET_NAME ++ "1", networkUrl "proj-a" NETWORK_NAME,
     subnetCreateRange 1, subnetSelfLink "proj-a" (SUBNET_NAME ++ "1")⟩],
   []⟩

/-- The calls setup_networking issues for project proj-a of study doc0, role
1, starting from the empty state. -/
def tr6 : List Call :=
  [Call.networkInsert NETWORK_NAME,
   Call.firewallInsert (NETWORK_NAME ++ "-vm-ingress"),
   Call.subnetInsert (SUBNET_NAME ++ "1") (subnetCreateRange 1),
   Call.addPeering SERVER_GCP_PROJECT,
   Call.addPeering "proj-b"]

/-- The network address of the range 10.0.i.0/24 is 10.0.i.0 itself: the
address value is a multiple of the block size 256. -/
theorem roleRange_netLo (i : Nat) :
    (roleRange i).netLo = 167772160 + i * 256 := by
  unfold roleRange Cidr.netLo Cidr.addrVal Cidr.blockSize
  norm_num

/-- The broadcast address of the range 10.0.i.0/24. -/
theorem roleRange_netHi (i : Nat) :
    (roleRange i).netHi = 167772160 + i * 256 + 255 := by
  unfold Cidr.netHi
  rw [roleRange_netLo]
  unfold roleRange Cidr.blockSize
  norm_num

/-- C9: for every number of roles n, the expected subnet ranges 10.0.i.0/24
generated for roles i in [0,n) are pairwise non-overlapping under the ipaddr
overlap test used by remove_conflicting_subnets. -/
theorem c9_theorem (n i j : Nat) (_hi : i < n) (_hj : j < n) (hij : i ≠ j) :
    Cidr.overlaps (roleRange i) (roleRange j) = false := by
  simp only [Cidr.overlaps, Cidr.containsAddr, roleRange_netLo, roleRange_netHi,
    Bool.or_eq_false_iff, Bool.and_eq_false_iff, decide_eq_false_iff_not,
    decide_eq_true_eq]
  omega

/-- Witness for C9 at n = 2, i = 0, j = 1. -/
theorem c9_witness :
    0 < 2 ∧ 1 < 2 ∧ (0 : Nat) ≠ 1 ∧
    Cidr.overlaps (roleRange 0) (roleRange 1) = false :=
  ⟨by decide, by decide, by decide,
   c9_theorem 2 0 1 (by decide) (by decide) (by decide)⟩

/-- C1 counterexample: with ordered project list [P, Q, R, P] and current
project P, role index 3 also holds project P, yet the computed expected-range
set is only the role-0 range: the range(3) cap excludes role 3, so the claim
that no role index is excluded by a fixed cap is false. -/
theorem c1_counterexample :
    ip_cidr_ranges_for_this_network "P" ["P", "Q", "R", "P"] =
      Except.ok [roleRange 0] ∧
    List.getD ["P", "Q", "R", "P"] 3 "" = "P" ∧
    roleRange 3 ∉ [roleRange 0] :=
  ⟨rfl, rfl, by decide⟩

/-- C1 (amended): for every project list of length at least three, the
expected address-range set computed by remove_conflicting_subnets holds
exactly the ranges 10.0.i.0/24 for the role indices i among the first three
positions (i < 3) whose project equals the current project. -/
theorem c1_theorem (project : String) (gcp : List String)
    (h : 3 ≤ gcp.length) :
    ∃ l, ip_cidr_ranges_for_this_network project gcp = Except.ok l ∧
      ∀ c, (c ∈ l ↔ ∃ i, i < 3 ∧ gcp.getD i "" = project ∧ c = roleRange i) := by
  refine ⟨(List.range 3).filterMap (fun i =>
    if gcp.getD i "" == project then some (roleRange i) else none), ?_, ?_⟩
  · unfold ip_cidr_ranges_for_this_network
    rw [if_neg (Nat.not_lt.mpr h)]
  · intro c
    simp only [List.mem_filterMap, List.mem_range]
    constructor
    · rintro ⟨i, hi, hf⟩
      by_cases hp : (gcp.getD i "" == project) = true
      · rw [if_pos hp] at hf
        exact ⟨i, hi, by simpa using hp, (Option.some.inj hf).symm⟩
      · rw [if_neg hp] at hf
        cases hf
    · rintro ⟨i, hi, hp, rfl⟩
      exact ⟨i, hi, by rw [if_pos (by simpa using hp)]⟩

/-- Witness for C1 at project P and list [P, Q, P]. -/
theorem c1_witness :
    3 ≤ (["P", "Q", "P"] : List String).length ∧
    (∃ l, ip_cidr_ranges_for_this_network "P" ["P", "Q", "P"] = Except.ok l ∧
      ∀ c, (c ∈ l ↔ ∃ i, i < 3 ∧
        (["P", "Q", "P"] : List String).getD i "" = "P" ∧ c = roleRange i)) :=
  ⟨by decide, c1_theorem "P" ["P", "Q", "P"] (by decide)⟩

/-- C10: remove_conflicting_subnets indexes the first three entries of the
project list, so a list of fewer than three entries raises IndexError (for
every cloud state, before flagging any subnet), and the expected-range set
never holds the range of a role index of three or more. -/
theorem c10_theorem :
    (∀ (project : String) (gcp : List String) (st : CloudState),
      gcp.length < 3 →
      remove_conflicting_subnets project gcp st =
        Except.error "IndexError: list index out of range") ∧
    (∀ (project : String) (gcp : List String) (l : List Cidr) (i : Nat),
      3 ≤ i → ip_cidr_ranges_for_this_network project gcp = Except.ok l →
      roleRange i ∉ l) := by
  constructor
  · intro project gcp st h
    unfold remove_conflicting_subnets ip_cidr_ranges_for_this_network
    rw [if_pos h]
  · intro project gcp l i h3 hok hmem
    unfold ip_cidr_ranges_for_this_network at hok
    by_cases hl : gcp.length < 3
    · rw [if_pos hl] at hok
      cases hok
    · rw [if_neg hl] at hok
      injection hok with hok
      subst hok
      simp only [List.mem_filterMap, List.mem_range] at hmem
      obtain ⟨j, hj, hf⟩ := hmem
      by_cases hp : (gcp.getD j "" == project) = true
      · rw [if_pos hp] at hf
        have hinj := Option.some.inj hf
        have hji : j = i := by
          have h3eq := congrArg Cidr.o3 hinj
          simpa [roleRange] using h3eq
        omega
      · rw [if_neg hp] at hf
        cases hf

/-- Witness for C10: a two-entry list raises IndexError, and role 3 is never
in the expected set. -/
theorem c10_witness :
    remove_conflicting_subnets "P" ["P", "Q"] st0 =
      Except.error "IndexError: list index out of range" ∧
    roleRange 3 ∉ [roleRange 0] :=
  ⟨c10_theorem.1 "P" ["P", "Q"] st0 (by decide),
   c10_theorem.2 "P" ["P", "Q", "R"] [roleRange 0] 3 (by decide) rfl⟩

/-- C2 counterexample: with expected-range set computed from project list
[P, P, Q] for project P (the ranges 10.0.0.0/24 and 10.0.1.0/24), the
existing study-network subnet 10.0.5.0/24 of stA is NOT flagged for deletion
(no delete call is issued and the state is unchanged), contrary to the
claim. -/
theorem c2_counterexample :
    remove_conflicting_subnets "P" ["P", "P", "Q"] stA =
      Except.ok (stA, []) := rfl

/-- C2 (amended): remove_conflicting_subnets flags a subnet exactly when its
range differs from every expected range and CIDR-overlaps at least one of
them.  Against expected set computed from [P, P, Q] (ranges 10.0.0.0/24 and
10.0.1.0/24), the subnets 10.0.5.0/24 and 10.0.5.0/28 are both preserved
(they overlap nothing expected); 10.0.5.0/28 is flagged against an expected
set holding 10.0.5.0/24 (a set the range(3) cap prevents the function itself
from producing); and the overlap test is CIDR containment, not string
equality: the subnet 10.0.1.0/28, distinct as a range from expected
10.0.1.0/24 but contained in it, is flagged and deleted. -/
theorem c2_theorem :
    remove_conflicting_subnets "P" ["P", "P", "Q"] stA =
      Except.ok (stA, []) ∧
    remove_conflicting_subnets "P" ["P", "P", "Q"] stB =
      Except.ok (stB, []) ∧
    subnetConflicting [roleRange 5] sub5_28 = true ∧
    remove_conflicting_subnets "P" ["P", "P", "Q"] stC =
      Except.ok (stCafter, [Call.subnetDeleteCall "subnet-role1-old"]) ∧
    sub1_28.ipCidrRange ≠ roleRange 1 :=
  ⟨rfl, rfl, rfl, rfl, by decide⟩

/-- C3: the operation waiter returns exactly at the first terminal (DONE)
poll: after non-terminal polls pre and a terminal poll r it stops after
pre.length + 1 polls, failing with the error payload when the terminal result
carries one and returning the terminal payload otherwise; on a sequence with
no terminal poll it neither returns nor fails. -/
theorem c3_theorem :
    (∀ (pre : List OpResult) (r : OpResult) (rest : List OpResult),
      (∀ x ∈ pre, x.status ≠ "DONE") → r.status = "DONE" →
      wait_for_operation (pre ++ r :: rest) =
        ((match r.err with
          | some e => WaitOutcome.failed e
          | none => WaitOutcome.done r), pre.length + 1)) ∧
    (∀ polls : List OpResult, (∀ x ∈ polls, x.status ≠ "DONE") →
      wait_for_operation polls = (WaitOutcome.pending, polls.length)) := by
  constructor
  · intro pre r rest hpre hr
    induction pre with
    | nil =>
      cases herr : r.err <;> simp [wait_for_operation, hr, herr]
    | cons x xs ih =>
      have hx : (x.status == "DONE") = false :=
        beq_eq_false_iff_ne.mpr (hpre x (List.mem_cons_self x xs))
      have ih' := ih (fun y hy => hpre y (List.mem_cons_of_mem x hy))
      simp [wait_for_operation, hx, ih']
  · intro polls hall
    induction polls with
    | nil => rfl
    | cons x xs ih =>
      have hx : (x.status == "DONE") = false :=
        beq_eq_false_iff_ne.mpr (hall x (List.mem_cons_self x xs))
      have ih' := ih (fun y hy => hall y (List.mem_cons_of_mem x hy))
      simp [wait_for_operation, hx, ih']

/-- Witness for C3: statuses [RUNNING, RUNNING, DONE] return the terminal
payload after exactly three polls; [RUNNING, DONE-with-error] fails with the
error detail after two polls. -/
theorem c3_witness :
    wait_for_operation
        [⟨"RUNNING", none⟩, ⟨"RUNNING", none⟩, ⟨"DONE", none⟩] =
      (WaitOutcome.done ⟨"DONE", none⟩, 3) ∧
    wait_for_operation [⟨"RUNNING", none⟩, ⟨"DONE", some "quotaExceeded"⟩] =
      (WaitOutcome.failed "quotaExceeded", 2) := by
  constructor
  · have h := c3_theorem.1 [⟨"RUNNING", none⟩, ⟨"RUNNING", none⟩]
      ⟨"DONE", none⟩ [] (by decide) rfl
    simpa using h
  · have h := c3_theorem.1 [⟨"RUNNING", none⟩]
      ⟨"DONE", some "quotaExceeded"⟩ [] (by decide) rfl
    simpa using h

/-- C4: for every cloud state, running each ensure-operation twice in a row
with unchanged inputs issues no create (insert or addPeering) call on the
second invocation. -/
theorem c4_theorem (project : String) (role : Nat) (gcp : List String)
    (st : CloudState) :
    (create_network (create_network st NETWORK_NAME).1 NETWORK_NAME).2 = [] ∧
    (create_subnet project role (create_subnet project role st).1).2 = [] ∧
    (create_peerings project gcp (create_peerings project gcp st).1).2 = [] := by
  refine ⟨?_, ?_, ?_⟩
  · by_cases h : NETWORK_NAME ∈ st.networks
    · simp [create_network, h]
    · simp [create_network, create_firewall, h]
  · by_cases h : SUBNET_NAME ++ toString role ∈ st.subnets.map Subnet.name
    · simp [create_subnet, h]
    · simp [create_subnet, h]
  · have hmem : ∀ p ∈ gcp.filter (fun p => p != project),
        p ∈ st.peerings ++ (gcp.filter (fun p => p != project)).filter
          (fun p => decide (p ∉ st.peerings)) := by
      intro p hp
      by_cases hin : p ∈ st.peerings
      · exact List.mem_append_left _ hin
      · refine List.mem_append_right _ ?_
        rw [List.mem_filter]
        exact ⟨hp, by simpa using hin⟩
    simp only [create_peerings]
    rw [List.map_eq_nil_iff, List.filter_eq_nil_iff]
    intro p hp
    have h2 := hmem p hp
    simp only [List.mem_append, List.mem_filter, decide_eq_true_eq] at h2 ⊢
    tauto

/-- Injectivity of the removePeering call constructor. -/
theorem removePeering_injective : Function.Injective Call.removePeering := by
  intro a b hab
  injection hab

/-- Injectivity of the addPeering call constructor. -/
theorem addPeering_injective : Function.Injective Call.addPeering := by
  intro a b hab
  injection hab

/-- C5: for duplicate-free current peerings and participant-project list, the
peering reconcilers (remove_conflicting_peerings then create_peerings) issue
exactly one removePeering for each peered project not in the participant set,
exactly one addPeering for each other participant project not already peered,
and zero calls of either kind for any other project; a peering to a project
that remains a participant survives into the final state. -/
theorem c5_theorem (project q : String) (gcp : List String) (st : CloudState)
    (hgcp : gcp.Nodup) (hnd : st.peerings.Nodup) :
    ((remove_conflicting_peerings gcp st).2.count (Call.removePeering q) =
      if q ∈ st.peerings ∧ q ∉ gcp then 1 else 0) ∧
    ((create_peerings project gcp
        (remove_conflicting_peerings gcp st).1).2.count (Call.addPeering q) =
      if q ∈ gcp ∧ q ≠ project ∧ q ∉ st.peerings then 1 else 0) ∧
    (q ∈ st.peerings → q ∈ gcp →
      q ∈ (create_peerings project gcp
        (remove_conflicting_peerings gcp st).1).1.peerings) := by
  refine ⟨?_, ?_, ?_⟩
  · show ((st.peerings.filter (fun p => decide (p ∉ gcp))).map
        Call.removePeering).count (Call.removePeering q) = _
    rw [List.count_map_of_injective _ _ removePeering_injective]
    by_cases hq : q ∈ st.peerings ∧ q ∉ gcp
    · rw [if_pos hq]
      refine List.count_eq_one_of_mem (hnd.filter _) ?_
      rw [List.mem_filter]
      exact ⟨hq.1, by simpa using hq.2⟩
    · rw [if_neg hq]
      refine List.count_eq_zero_of_not_mem ?_
      intro hmem
      rw [List.mem_filter] at hmem
      exact hq ⟨hmem.1, by simpa using hmem.2⟩
  · show (((gcp.filter (fun p => p != project)).filter
        (fun p => decide (p ∉ (st.peerings.filter
          (fun p => decide (p ∈ gcp)))))).map Call.addPeering).count
        (Call.addPeering q) = _
    rw [List.count_map_of_injective _ _ addPeering_injective]
    by_cases hq : q ∈ gcp ∧ q ≠ project ∧ q ∉ st.peerings
    · rw [if_pos hq]
      refine List.count_eq_one_of_mem ((hgcp.filter _).filter _) ?_
      rw [List.mem_filter, List.mem_filter]
      refine ⟨⟨hq.1, by simpa using hq.2.1⟩, ?_⟩
      simp only [decide_eq_true_eq, List.mem_filter]
      intro hcon
      exact hq.2.2 hcon.1
    · rw [if_neg hq]
      refine List.count_eq_zero_of_not_mem ?_
      intro hmem
      rw [List.mem_filter, List.mem_filter] at hmem
      refine hq ⟨hmem.1.1, by simpa using hmem.1.2, ?_⟩
      intro hpe
      have := hmem.2
      simp only [decide_eq_true_eq, List.mem_filter] at this
      exact this ⟨hpe, by simpa using hmem.1.1⟩
  · intro hpe hg
    refine List.mem_append_left _ ?_
    show q ∈ st.peerings.filter (fun p => decide (p ∈ gcp))
    rw [List.mem_filter]
    exact ⟨hpe, by simpa using hg⟩

/-- Witness for C5: current peerings [A, B, C] and participant projects
[A, C, D] for project P: exactly one removal of B, exactly one addition of D,
no removal or addition of A, and A survives into the final peerings. -/
theorem c5_witness :
    (["A", "C", "D"] : List String).Nodup ∧ stP.peerings.Nodup ∧
    (remove_conflicting_peerings ["A", "C", "D"] stP).2.count
        (Call.removePeering "B") = 1 ∧
    (create_peerings "P" ["A", "C", "D"]
        (remove_conflicting_peerings ["A", "C", "D"] stP).1).2.count
        (Call.addPeering "D") = 1 ∧
    (remove_conflicting_peerings ["A", "C", "D"] stP).2.count
        (Call.removePeering "A") = 0 ∧
    (create_peerings "P" ["A", "C", "D"]
        (remove_conflicting_peerings ["A", "C", "D"] stP).1).2.count
        (Call.addPeering "A") = 0 ∧
    "A" ∈ (create_peerings "P" ["A", "C", "D"]
        (remove_conflicting_peerings ["A", "C", "D"] stP).1).1.peerings := by
  refine ⟨by decide, by decide, ?_, ?_, ?_, ?_, ?_⟩
  · have h := c5_theorem "P" "B" ["A", "C", "D"] stP (by decide) (by decide)
    exact h.1.trans (by decide)
  · have h := c5_theorem "P" "D" ["A", "C", "D"] stP (by decide) (by decide)
    exact h.2.1.trans (by decide)
  · have h := c5_theorem "P" "A" ["A", "C", "D"] stP (by decide) (by decide)
    exact h.1.trans (by decide)
  · have h := c5_theorem "P" "A" ["A", "C", "D"] stP (by decide) (by decide)
    exact h.2.1.trans (by decide)
  · have h := c5_theorem "P" "A" ["A", "C", "D"] stP (by decide) (by decide)
    exact h.2.2 (by decide) (by decide)

/-- Every call of create_network is a network or firewall insertion. -/
theorem create_network_calls (st : CloudState) (n : String) :
    ∀ cl ∈ (create_network st n).2, cl.isNetworkSetup = true := by
  intro cl hcl
  by_cases h : n ∈ st.networks
  · simp [create_network, h] at hcl
  · simp [create_network, create_firewall, h] at hcl
    rcases hcl with rfl | rfl <;> rfl

/-- Every call of remove_conflicting_peerings is a peering removal. -/
theorem remove_peerings_calls (gcp : List String) (st : CloudState) :
    ∀ cl ∈ (remove_conflicting_peerings gcp st).2,
      cl.isPeeringRemove = true := by
  intro cl hcl
  simp only [remove_conflicting_peerings, List.mem_map] at hcl
  obtain ⟨p, _, rfl⟩ := hcl
  rfl

/-- Every call of one delete_subnet effect is a pruning call. -/
theorem delete_subnet_effect_calls (st : CloudState) (sub : Subnet) :
    ∀ cl ∈ (delete_subnet_effect st sub).2, cl.isSubnetPrune = true := by
  intro cl hcl
  simp only [delete_subnet_effect, List.mem_append, List.mem_map,
    List.mem_singleton] at hcl
  rcases hcl with ⟨nm, _, rfl⟩ | rfl <;> rfl

/-- The subnet loop of remove_conflicting_subnets only accumulates pruning
calls. -/
theorem rcs_fold_calls (expected : List Cidr) (subs : List Subnet)
    (acc : CloudState × List Call)
    (hacc : ∀ cl ∈ acc.2, cl.isSubnetPrune = true) :
    ∀ cl ∈ (subs.foldl (rcsStep expected) acc).2,
      cl.isSubnetPrune = true := by
  induction subs generalizing acc with
  | nil => exact hacc
  | cons s ss ih =>
    simp only [List.foldl_cons]
    refine ih (rcsStep expected acc s) ?_
    intro cl hcl
    unfold rcsStep at hcl
    by_cases h : subnetConflicting expected s = true
    · rw [if_pos h] at hcl
      simp only [List.mem_append] at hcl
      rcases hcl with hcl | hcl
      · exact hacc cl hcl
      · exact delete_subnet_effect_calls acc.1 s cl hcl
    · rw [if_neg h] at hcl
      exact hacc cl hcl

/-- Every call of remove_conflicting_subnets is a pruning call. -/
theorem rcs_calls (project : String) (gcp : List String) (st : CloudState)
    (p3 : CloudState × List Call)
    (h : remove_conflicting_subnets project gcp st = Except.ok p3) :
    ∀ cl ∈ p3.2, cl.isSubnetPrune = true := by
  unfold remove_conflicting_subnets at h
  cases hm : ip_cidr_ranges_for_this_network project gcp with
  | error e => rw [hm] at h; cases h
  | ok expected =>
    rw [hm] at h
    injection h with h
    subst h
    exact rcs_fold_calls expected st.subnets (st, [])
      (by intro cl hcl; cases hcl)

/-- Every call of create_subnet is a subnet insertion. -/
theorem create_subnet_calls (project : String) (role : Nat)
    (st : CloudState) :
    ∀ cl ∈ (create_subnet project role st).2, cl.isSubnetInsert = true := by
  intro cl hcl
  by_cases h : SUBNET_NAME ++ toString role ∈ st.subnets.map Subnet.name
  · simp [create_subnet, h] at hcl
  · simp [create_subnet, h] at hcl
    subst hcl
    rfl

/-- Every call of create_peerings is a peering addition. -/
theorem create_peerings_calls (project : String) (gcp : List String)
    (st : CloudState) :
    ∀ cl ∈ (create_peerings project gcp st).2, cl.isPeeringAdd = true := by
  intro cl hcl
  simp only [create_peerings, List.mem_map] at hcl
  obtain ⟨p, _, rfl⟩ := hcl
  rfl

/-- C6: setup_networking assembles the ordered project list (server project
first, then one project per participant in participant-list order) and its
call trace decomposes into the five phases in order: network setup, peering
pruning, subnet pruning, subnet creation, peering creation — so stale
peerings and subnets are always pruned before any new subnet or peering is
created. -/
theorem c6_theorem (project : String) (doc : StudyDoc) (role : Nat)
    (st stf : CloudState) (tr : List Call)
    (h : setup_networking project doc role st = Except.ok (stf, tr)) :
    study_gcp_projects doc =
      SERVER_GCP_PROJECT :: doc.participants.map doc.gcpProject ∧
    ∃ t1 t2 t3 t4 t5, tr = t1 ++ t2 ++ t3 ++ t4 ++ t5 ∧
      (∀ cl ∈ t1, cl.isNetworkSetup = true) ∧
      (∀ cl ∈ t2, cl.isPeeringRemove = true) ∧
      (∀ cl ∈ t3, cl.isSubnetPrune = true) ∧
      (∀ cl ∈ t4, cl.isSubnetInsert = true) ∧
      (∀ cl ∈ t5, cl.isPeeringAdd = true) := by
  refine ⟨rfl, ?_⟩
  simp only [setup_networking] at h
  cases hm : remove_conflicting_subnets project (study_gcp_projects doc)
      (remove_conflicting_peerings (study_gcp_projects doc)
        (create_network st NETWORK_NAME).1).1 with
  | error e =>
    rw [hm] at h
    cases h
  | ok p3 =>
    rw [hm] at h
    injection h with h
    rw [Prod.mk.injEq] at h
    obtain ⟨hst, htr⟩ := h
    refine ⟨_, _, _, _, _, htr.symm,
      create_network_calls st NETWORK_NAME,
      remove_peerings_calls (study_gcp_projects doc)
        (create_network st NETWORK_NAME).1,
      rcs_calls project (study_gcp_projects doc)
        (remove_conflicting_peerings (study_gcp_projects doc)
          (create_network st NETWORK_NAME).1).1 p3 hm,
      create_subnet_calls project role p3.1,
      create_peerings_calls project (study_gcp_projects doc)
        (create_subnet project role p3.1).1⟩

/-- The empty needle is a substring of every string (Python: the empty string
is in every string). -/
theorem chContains_nil (l : List Char) : chContains [] l = true := by
  induction l with
  | nil => rfl
  | cons c cs ih => simp [chContains, chPrefix]

/-- The empty filter of list_instances keeps every instance of the zone. -/
theorem strContains_empty (s : String) : strContains s "" = true := by
  unfold strContains
  exact chContains_nil s.toList

/-- An instance of constants.ZONE always shows up in the unfiltered listing of
that zone. -/
theorem mem_list_instances (st : CloudState) (i : Instance)
    (hi : i ∈ st.instances) (hz : i.zone = ZONE) :
    i.name ∈ list_instances st ZONE "" := by
  unfold list_instances
  refine List.mem_map.mpr ⟨i, ?_, rfl⟩
  rw [List.mem_filter]
  exact ⟨hi, by simp [hz, strContains_empty]⟩

/-- A name in the unfiltered listing of constants.ZONE comes from an instance
of that zone. -/
theorem exists_of_mem_list_instances (st : CloudState) (nm : String)
    (h : nm ∈ list_instances st ZONE "") :
    ∃ i ∈ st.instances, i.zone = ZONE ∧ i.name = nm := by
  unfold list_instances at h
  obtain ⟨i, hfil, hname⟩ := List.mem_map.mp h
  rw [List.mem_filter] at hfil
  refine ⟨i, hfil.1, ?_, hname⟩
  have h2 := hfil.2
  simp only [Bool.and_eq_true, beq_iff_eq] at h2
  exact h2.1

/-- C7 counterexample: an instance named inst0 exists in the passed zone
europe-west1-b, but because the existence check of setup_instance consults
the fixed constant zone, no delete is issued and the creation fails against
the surviving instance: setup_instance neither deletes the existing
same-named instance nor creates a fresh one, contrary to the claim quantified
over every zone. -/
theorem c7_counterexample :
    (∃ i ∈ stZ.instances, i.zone = "europe-west1-b" ∧ i.name = "inst0") ∧
    setup_instance "P" "europe-west1-b" "inst0" 1 4 false none 10 "35.0.0.9"
      stZ = Except.error "instanceAlreadyExists" :=
  ⟨⟨instZ, by simp [stZ], rfl, rfl⟩, rfl⟩

/-- C7 (amended): for calls whose zone is the configured constant zone (the
zone the existence check always consults), setup_instance deletes the
existing same-named instance of that zone if there is one — the delete call
precedes the insert call — then creates a fresh instance whose internal
address is 10.0.role.10, whose metadata is the startup script (validation
variant iff the validate flag is set) and the OS-login flag with any
caller-supplied metadata appended, whose boot disk has the caller-specified
size and whose service-account scopes are exactly storage read/write, logging
and pub/sub; it returns the external address assigned to the created
instance. -/
theorem c7_theorem (project name : String) (role num_cpus : Nat)
    (validate : Bool) (metadata : Option (String × String)) (bds : Nat)
    (natIP : String) (st : CloudState) :
    ∃ stf tr,
      setup_instance project ZONE name role num_cpus validate metadata bds
        natIP st = Except.ok (stf, tr, natIP) ∧
      tr = (if name ∈ list_instances st ZONE "" then
              [Call.instanceDelete name ZONE] else []) ++
           [Call.instanceInsert name ZONE] ∧
      ∃ inst, inst ∈ stf.instances ∧ inst.name = name ∧ inst.zone = ZONE ∧
        inst.networkIP = "10.0." ++ toString role ++ ".10" ∧
        inst.metadataItems =
          [("startup-script",
            if validate then startup_script_validate
            else startup_script_default),
           ("enable-oslogin", "True")] ++
          (match metadata with | some m => [m] | none => []) ∧
        inst.bootDiskSizeGb = bds ∧
        inst.scopes = ["https://www.googleapis.com/auth/devstorage.read_write",
                       "https://www.googleapis.com/auth/logging.write",
                       "https://www.googleapis.com/auth/pubsub"] ∧
        inst.natIP = natIP := by
  have hinstface : ∀ inst0 : Instance,
      inst0 = newInstance project ZONE name role num_cpus validate metadata
        bds natIP →
      inst0.name = name ∧ inst0.zone = ZONE ∧
      inst0.networkIP = "10.0." ++ toString role ++ ".10" ∧
      inst0.metadataItems =
        [("startup-script",
          if validate then startup_script_validate
          else startup_script_default),
         ("enable-oslogin", "True")] ++
        (match metadata with | some m => [m] | none => []) ∧
      inst0.bootDiskSizeGb = bds ∧
      inst0.scopes = ["https://www.googleapis.com/auth/devstorage.read_write",
                      "https://www.googleapis.com/auth/logging.write",
                      "https://www.googleapis.com/auth/pubsub"] ∧
      inst0.natIP = natIP := by
    rintro inst0 rfl
    cases metadata <;>
      simp [newInstance, metadata_config, instanceScopes]
  by_cases hex : name ∈ list_instances st ZONE ""
  · -- an instance of this name already lives in constants.ZONE
    have hcont : (list_instances st ZONE "").contains name = true :=
      List.elem_iff.mpr hex
    have hne : (list_instances st ZONE "").isEmpty = false := by
      cases hl : list_instances st ZONE "" with
      | nil => rw [hl] at hex; cases hex
      | cons a as => rfl
    obtain ⟨i0, hi0, hz0, hn0⟩ := exists_of_mem_list_instances st name hex
    have hany : st.instances.any
        (fun i => i.zone == ZONE && i.name == name) = true := by
      refine List.any_eq_true.mpr ⟨i0, hi0, ?_⟩
      simp [hz0, hn0]
    have hdel : delete_instance name ZONE st =
        Except.ok ({ st with instances := (st.instances.filter
            (fun i => !(i.zone == ZONE && i.name == name))) },
          [Call.instanceDelete name ZONE]) := by
      unfold delete_instance
      rw [if_pos hany]
    have hno : (st.instances.filter
        (fun i => !(i.zone == ZONE && i.name == name))).any
        (fun i => i.zone == ZONE && i.name == name) = false := by
      rw [List.any_eq_false]
      intro x hx
      rw [List.mem_filter] at hx
      have h2 := hx.2
      simp only [Bool.not_eq_true'] at h2
      simp [h2]
    have hfnone : (st.instances.filter
        (fun i => !(i.zone == ZONE && i.name == name))).find?
        (fun i => i.zone == ZONE && i.name == name) = none := by
      rw [List.find?_eq_none]
      intro x hx
      rw [List.mem_filter] at hx
      have h2 := hx.2
      simp only [Bool.not_eq_true'] at h2
      simp [h2]
    refine ⟨{ st with instances := (st.instances.filter
        (fun i => !(i.zone == ZONE && i.name == name))) ++
        [newInstance project ZONE name role num_cpus validate metadata bds
          natIP] },
      [Call.instanceDelete name ZONE, Call.instanceInsert name ZONE],
      ?_, ?_, ?_⟩
    · simp only [setup_instance, hne, hcont, Bool.not_false, Bool.and_self,
        if_true, hdel]
      simp only [create_instance, hno, Bool.false_eq_true, if_false,
        get_vm_external_ip_address, List.find?_append, hfnone, Option.none_or,
        List.find?_cons]
      have hpred : ((newInstance project ZONE name role num_cpus validate
          metadata bds natIP).zone == ZONE &&
          (newInstance project ZONE name role num_cpus validate metadata bds
            natIP).name == name) = true := by
        simp [newInstance]
      rw [hpred]
      rfl
    · rw [if_pos hex]
      rfl
    · refine ⟨newInstance project ZONE name role num_cpus validate metadata
        bds natIP, ?_, hinstface _ rfl⟩
      simp
  · -- no instance of this name lives in constants.ZONE
    have hcont : (list_instances st ZONE "").contains name = false := by
      cases hc : (list_instances st ZONE "").contains name
      · rfl
      · exact absurd (List.elem_iff.mp hc) hex
    have hno : st.instances.any
        (fun i => i.zone == ZONE && i.name == name) = false := by
      rw [List.any_eq_false]
      intro x hx hpx
      simp only [Bool.and_eq_true, beq_iff_eq] at hpx
      exact hex (hpx.2 ▸ mem_list_instances st x hx hpx.1)
    have hfnone : st.instances.find?
        (fun i => i.zone == ZONE && i.name == name) = none := by
      rw [List.find?_eq_none]
      intro x hx hpx
      simp only [Bool.and_eq_true, beq_iff_eq] at hpx
      exact hex (hpx.2 ▸ mem_list_instances st x hx hpx.1)
    refine ⟨{ st with instances := st.instances ++
        [newInstance project ZONE name role num_cpus validate metadata bds
          natIP] },
      [Call.instanceInsert name ZONE], ?_, ?_, ?_⟩
    · simp only [setup_instance, hcont, Bool.and_false, if_false]
      simp only [create_instance, hno, Bool.false_eq_true, if_false,
        get_vm_external_ip_address, List.find?_append, hfnone, Option.none_or,
        List.find?_cons]
      have hpred : ((newInstance project ZONE name role num_cpus validate
          metadata bds natIP).zone == ZONE &&
          (newInstance project ZONE name role num_cpus validate metadata bds
            natIP).name == name) = true := by
        simp [newInstance]
      rw [hpred]
      rfl
    · rw [if_neg hex]
      rfl
    · refine ⟨newInstance project ZONE name role num_cpus validate metadata
        bds natIP, ?_, hinstface _ rfl⟩
      simp

/-- The confirmation loop breaks on the poll that no longer lists the subnet:
delay d at most 24 gives d + 1 polls with d two-second sleeps between them. -/
theorem confirmLoop_confirmed (d : Nat) :
    ∀ (fuel i : Nat), i ≤ d → d ≤ 24 → 26 ≤ i + fuel →
    confirmLoop d i fuel =
      SubnetDelOutcome.confirmed (d - i + 1) (List.replicate (d - i) 2) := by
  intro fuel
  induction fuel with
  | zero =>
    intro i h1 h2 h3
    omega
  | succ n ih =>
    intro i h1 h2 h3
    rw [confirmLoop]
    rw [if_neg (by simp only [beq_iff_eq]; omega)]
    by_cases hdi : d ≤ i
    · rw [if_pos hdi]
      rw [show d - i = 0 from by omega]
      rfl
    · rw [if_neg hdi]
      rw [ih (i + 1) (by omega) h2 (by omega)]
      obtain ⟨k, hk⟩ : ∃ k, d - i = k + 1 := ⟨d - i - 1, by omega⟩
      rw [show d - (i + 1) = k from by omega, hk, List.replicate_succ]

/-- The confirmation loop hits the fatal quit when the subnet survives 25
polls: delay d at least 25 gives the process exit after 25 polls. -/
theorem confirmLoop_fatal (d : Nat) :
    ∀ (fuel i : Nat), i ≤ 25 → 25 ≤ d → 26 ≤ i + fuel →
    confirmLoop d i fuel =
      SubnetDelOutcome.fatal (25 - i) (List.replicate (25 - i) 2) := by
  intro fuel
  induction fuel with
  | zero =>
    intro i h1 h2 h3
    omega
  | succ n ih =>
    intro i h1 h2 h3
    rw [confirmLoop]
    by_cases h25 : i = 25
    · subst h25
      rw [if_pos (by simp)]
      rfl
    · rw [if_neg (by simp only [beq_iff_eq]; omega)]
      rw [if_neg (by omega : ¬ d ≤ i)]
      rw [ih (i + 1) (by omega) h2 (by omega)]
      obtain ⟨k, hk⟩ : ∃ k, 25 - i = k + 1 := ⟨25 - i - 1, by omega⟩
      rw [show 25 - (i + 1) = k from by omega, hk, List.replicate_succ]

/-- A fixed-wait retry whose attempt k is the first to succeed returns its
value after k + 1 attempts with k waits. -/
theorem retryFixed_ok {α : Type} (w : Nat) (fails : Nat → Bool)
    (run : Nat → α) :
    ∀ (n k0 k : Nat), k < n → (∀ j, j < k → fails (k0 + j) = true) →
    fails (k0 + k) = false →
    retryFixed w fails run n k0 =
      RetryOutcome.ok (run (k0 + k)) (k + 1) (List.replicate k w) := by
  intro n
  induction n with
  | zero =>
    intro k0 k hk hfail hsucc
    omega
  | succ n ih =>
    intro k0 k hk hfail hsucc
    cases k with
    | zero =>
      rw [Nat.add_zero] at hsucc
      cases n with
      | zero =>
        rw [retryFixed.eq_2, if_neg (by simp [hsucc])]
        rfl
      | succ m =>
        rw [retryFixed.eq_3, if_neg (by simp [hsucc])]
        rfl
    | succ k2 =>
      have h0 : fails k0 = true := by simpa using hfail 0 (by omega)
      cases n with
      | zero => omega
      | succ m =>
        rw [retryFixed.eq_3, if_pos h0]
        rw [ih (k0 + 1) k2 (by omega)
          (fun j hj => by
            have hf := hfail (j + 1) (by omega)
            rwa [show k0 + (j + 1) = k0 + 1 + j from by omega] at hf)
          (by rwa [show k0 + 1 + k2 = k0 + (k2 + 1) from by omega])]
        rw [show k0 + 1 + k2 = k0 + (k2 + 1) from by omega,
          List.replicate_succ]

/-- A fixed-wait retry whose first n attempts all fail raises after exactly n
attempts with n - 1 waits. -/
theorem retryFixed_exhausted {α : Type} (w : Nat) (fails : Nat → Bool)
    (run : Nat → α) :
    ∀ (n k0 : Nat), 1 ≤ n → (∀ j, j < n → fails (k0 + j) = true) →
    retryFixed w fails run n k0 =
      RetryOutcome.exhausted n (List.replicate (n - 1) w) := by
  intro n
  induction n with
  | zero =>
    intro k0 h1 hall
    omega
  | succ n ih =>
    intro k0 h1 hall
    have h0 : fails k0 = true := by simpa using hall 0 (by omega)
    cases n with
    | zero =>
      rw [retryFixed.eq_2, if_pos h0]
      rfl
    | succ m =>
      rw [retryFixed.eq_3, if_pos h0]
      rw [ih (k0 + 1) (by omega)
        (fun j hj => by
          have hf := hall (j + 1) (by omega)
          rwa [show k0 + (j + 1) = k0 + 1 + j from by omega] at hf)]
      rw [show m + 1 + 1 - 1 = (m + 1 - 1) + 1 from by omega,
        List.replicate_succ]

/-- C8: delete_subnet first deletes every instance attached to the subnet
(each deletion preceding the subnet delete call), then confirms the deletion
against the listing: with control-plane delay d the loop performs d + 1 polls
separated by 2-second sleeps when d stays within the 30-iteration budget,
and the run is fatal (process exit) after 25 polls otherwise; the decorator
retries the whole body at most 5 times with fixed 30-second waits on
transient API errors, the first successful attempt k returning after k + 1
attempts and five transient failures exhausting the retries. -/
theorem c8_theorem :
    (∀ (st : CloudState) (sub : Subnet) (d : Nat),
      (delete_subnet_body st sub d).calls =
        (list_instances st ZONE sub.selfLink).map
          (fun n => Call.instanceDelete n ZONE) ++
          [Call.subnetDeleteCall sub.name]) ∧
    (∀ (st : CloudState) (sub : Subnet) (d : Nat), d ≤ 24 →
      (delete_subnet_body st sub d).outcome =
        SubnetDelOutcome.confirmed (d + 1) (List.replicate d 2)) ∧
    (∀ (st : CloudState) (sub : Subnet) (d : Nat), 25 ≤ d →
      (delete_subnet_body st sub d).outcome =
        SubnetDelOutcome.fatal 25 (List.replicate 25 2)) ∧
    (∀ (st : CloudState) (sub : Subnet) (d k : Nat) (fails : Nat → Bool),
      k < 5 → (∀ j, j < k → fails j = true) → fails k = false →
      delete_subnet_retried st sub d fails =
        RetryOutcome.ok (delete_subnet_body st sub d) (k + 1)
          (List.replicate k 30)) ∧
    (∀ (st : CloudState) (sub : Subnet) (d : Nat) (fails : Nat → Bool),
      (∀ j, j < 5 → fails j = true) →
      delete_subnet_retried st sub d fails =
        RetryOutcome.exhausted 5 (List.replicate 4 30)) := by
  refine ⟨fun st sub d => rfl, ?_, ?_, ?_, ?_⟩
  · intro st sub d hd
    show confirmLoop d 0 30 = _
    rw [confirmLoop_confirmed d 30 0 (by omega) hd (by omega)]
    simp
  · intro st sub d hd
    show confirmLoop d 0 30 = _
    rw [confirmLoop_fatal d 30 0 (by omega) hd (by omega)]
  · intro st sub d k fails hk hfail hsucc
    unfold delete_subnet_retried
    rw [retryFixed_ok 30 fails _ 5 0 k hk
      (fun j hj => by simpa using hfail j hj) (by simpa using hsucc)]
  · intro st sub d fails hall
    unfold delete_subnet_retried
    rw [retryFixed_exhausted 30 fails _ 5 0 (by omega)
      (fun j hj => by simpa using hall j hj)]

/-- Witness for C8: one attached instance is evacuated before the subnet
delete; delay 3 confirms after 4 polls and 3 two-second sleeps; a transient
failure of the first attempt succeeds on the second after one 30-second
wait; five transient failures exhaust the retries. -/
theorem c8_witness :
    (delete_subnet_body st8 sub8 3).calls =
      (list_instances st8 ZONE sub8.selfLink).map
        (fun n => Call.instanceDelete n ZONE) ++
        [Call.subnetDeleteCall sub8.name] ∧
    (delete_subnet_body st8 sub8 3).outcome =
      SubnetDelOutcome.confirmed 4 (List.replicate 3 2) ∧
    (delete_subnet_body st8 sub8 40).outcome =
      SubnetDelOutcome.fatal 25 (List.replicate 25 2) ∧
    delete_subnet_retried st8 sub8 3 (fun k => k == 0) =
      RetryOutcome.ok (delete_subnet_body st8 sub8 3) 2
        (List.replicate 1 30) ∧
    delete_subnet_retried st8 sub8 3 (fun _ => true) =
      RetryOutcome.exhausted 5 (List.replicate 4 30) :=
  ⟨c8_theorem.1 st8 sub8 3,
   c8_theorem.2.1 st8 sub8 3 (by omega),
   c8_theorem.2.2.1 st8 sub8 40 (by omega),
   c8_theorem.2.2.2.1 st8 sub8 3 1 (fun k => k == 0) (by omega)
     (fun j hj => by simp [show j = 0 from by omega]) (by simp),
   c8_theorem.2.2.2.2 st8 sub8 3 (fun _ => true) (fun j hj => rfl)⟩

/-- Witness for C6: the two-participant study doc0 run for project proj-a at
role 1 from the empty state. -/
theorem c6_witness :
    setup_networking "proj-a" doc0 1 st0 = Except.ok (stFinal6, tr6) ∧
    (study_gcp_projects doc0 =
      SERVER_GCP_PROJECT :: doc0.participants.map doc0.gcpProject ∧
    ∃ t1 t2 t3 t4 t5, tr6 = t1 ++ t2 ++ t3 ++ t4 ++ t5 ∧
      (∀ cl ∈ t1, cl.isNetworkSetup = true) ∧
      (∀ cl ∈ t2, cl.isPeeringRemove = true) ∧
      (∀ cl ∈ t3, cl.isSubnetPrune = true) ∧
      (∀ cl ∈ t4, cl.isSubnetInsert = true) ∧
      (∀ cl ∈ t5, cl.isPeeringAdd = true)) :=
  ⟨rfl, c6_theorem "proj-a" doc0 1 st0 stFinal6 tr6 rfl⟩

end SfkitGcp
